import Mathlib

/-!
Shallow embedding of the CrashBot decision engine
(src/Crash/src/strategy_engine.py and src/Crash/src/bot_controller.py).

Monetary amounts, round outcomes and clock times are modelled as exact
rationals.  Python dictionaries that the code builds with fixed keys are
modelled as Lean structures with one field per key; a `dict.get(key, default)`
against a key the producer never writes is modelled as the default.
Stateful methods become pure functions from the old state (plus the inputs
the method reads) to the result and the new state.  External collaborators
(the vision reads, the predictive model) are explicit parameters.
-/

set_option maxRecDepth 8000

namespace CrashBot

/-- Python `round` ties-to-even on exact rationals (the float representation
error of the CPython implementation is idealised away). -/
def roundHalfEven (q : ℚ) : ℤ :=
  let f := ⌊q⌋
  let r := q - f
  if r < 1/2 then f
  else if 1/2 < r then f + 1
  else if f % 2 = 0 then f else f + 1

/-- Python `round(x, 2)`. -/
def round2 (q : ℚ) : ℚ := (roundHalfEven (q * 100) : ℚ) / 100

/-- Python `list(l)[-n:]`: the last `n` elements (all of them when shorter). -/
def lastN (n : ℕ) (l : List ℚ) : List ℚ := l.drop (l.length - n)

/-- Arithmetic mean, `np.mean`. -/
def mean (l : List ℚ) : ℚ := l.sum / l.length

/-- Population variance, the square of `np.std`.  The code compares
`np.std(recent) < c`; since both sides are nonnegative this is equivalent to
`popVariance recent < c^2`, which is how the comparison is stated here to
stay inside exact rational arithmetic. -/
def popVariance (l : List ℚ) : ℚ :=
  ((l.map (fun x => (x - mean l) ^ 2)).sum) / l.length

/-! ## strategy_engine.py: BetRecommendation and the Martingale15 sizing policy -/

/-- `BetRecommendation` dataclass (strategy_engine.py). -/
structure BetRecommendation where
  strategy_name : String
  bet_1 : ℚ
  target_1 : ℚ
  bet_2 : ℚ
  target_2 : ℚ
  justification : String
  confidence : ℚ
  ready : Bool
deriving DecidableEq

namespace Martingale15

/-- The `multipliers = {1: 1, 2: 2, 3: 4, 4: 8}` dict of `_definir_valores`. -/
def multipliers : List (ℕ × ℚ) := [(1, 1), (2, 2), (3, 4), (4, 8)]

/-- `_definir_valores`: `{dobra: max(1.0, round((banca_inicial / 15) * mult, 2))}`. -/
def valores_fixos (banca_inicial : ℚ) : List (ℕ × ℚ) :=
  multipliers.map (fun p => (p.1, max 1 (round2 (banca_inicial / 15 * p.2))))

/-- `Martingale15.get_bet`: `valores_fixos.get(dobra_atual, valores_fixos[1])`.
The current balance argument is accepted and ignored, as in the code. -/
def get_bet (banca_inicial : ℚ) (dobra_atual : ℕ) (banca_atual : ℚ) : ℚ :=
  match (valores_fixos banca_inicial).lookup dobra_atual with
  | some v => v
  | none => ((valores_fixos banca_inicial).lookup 1).getD 0

/-- `Martingale15.get_target`: the target is hard-coded to 1.84. -/
def get_target (dobra_atual : ℕ) : ℚ := 184 / 100

end Martingale15

/-! ## strategy_engine.py: Martingale8LowPolicy -/

/-- Mutable state of `Martingale8LowPolicy` (including the fields set in
`StrategyPolicy.__init__` and the sizing bankroll captured by its
`Martingale15` member). -/
structure MartingaleState where
  is_active : Bool
  dobra_atual : ℕ
  perdas_consecutivas : ℕ
  modo_continuo : Bool
  target_ativo : ℚ
  lows_needed : ℕ
  alerta_6_lows_enviado : Bool
  banca_inicial : ℚ
deriving DecidableEq

namespace MartingaleState

/-- `Martingale8LowPolicy.__init__(banca_inicial, ...)`. -/
def init (banca_inicial : ℚ) : MartingaleState :=
  { is_active := false
  , dobra_atual := 1
  , perdas_consecutivas := 0
  , modo_continuo := false
  , target_ativo := 184 / 100
  , lows_needed := 8
  , alerta_6_lows_enviado := false
  , banca_inicial := banca_inicial }

end MartingaleState

/-- The `threshold = 2.0` constant of `Martingale8LowPolicy`. -/
def lowThreshold : ℚ := 2

/-- `_count_consecutive_lows`: values `< threshold` at the end of the history
(history lists are most-recent-last, matching `deque.append`). -/
def countConsecutiveLows (threshold : ℚ) (history : List ℚ) : ℕ :=
  (history.reverse.takeWhile (fun v => decide (v < threshold))).length

/-- `_check_safety_conditions`: veto when fewer than 20 outcomes are known, or
when the last 20 outcomes have std < 2.3 (encoded as variance < 2.3^2) or
mean < 2.5. -/
def checkSafetyConditions (history : List ℚ) : Bool :=
  if history.length < 20 then false
  else
    let recent := lastN 20 history
    !(decide (popVariance recent < 529 / 100) || decide (mean recent < 5 / 2))

namespace Martingale

/-- `_activate_strategy`. -/
def activate (s : MartingaleState) : MartingaleState :=
  { s with is_active := true, dobra_atual := 1, perdas_consecutivas := 0
         , modo_continuo := false }

/-- `_reset_cycle`. -/
def resetCycle (s : MartingaleState) : MartingaleState :=
  { s with is_active := false, dobra_atual := 1, perdas_consecutivas := 0
         , modo_continuo := false, target_ativo := 0 }

/-- The 6-lows Telegram-alert flag bookkeeping inside `check_trigger`
(the send itself is an external effect and is dropped). -/
def updateAlertFlag (s : MartingaleState) (lows_count : ℕ) : MartingaleState :=
  if lows_count = 6 ∧ s.alerta_6_lows_enviado = false then
    { s with alerta_6_lows_enviado := true }
  else if lows_count < 6 ∧ s.alerta_6_lows_enviado = true then
    { s with alerta_6_lows_enviado := false }
  else s

/-- `_handle_trigger_condition`: activate only when the consecutive-lows count
reaches `lows_needed` and the safety gate passes. -/
def handleTriggerCondition (s : MartingaleState) (lows_count : ℕ)
    (history : List ℚ) : Bool × MartingaleState :=
  if s.lows_needed ≤ lows_count then
    if checkSafetyConditions history then (true, activate s)
    else (false, s)
  else (false, s)

/-- `Martingale8LowPolicy.check_trigger`. -/
def checkTrigger (s : MartingaleState) (history : List ℚ) :
    Bool × MartingaleState :=
  if s.is_active then (false, s)
  else
    let lows := countConsecutiveLows lowThreshold history
    handleTriggerCondition (updateAlertFlag s lows) lows history

/-- `Martingale8LowPolicy.get_bet_recommendation` (also stores the target it
recommended into `target_ativo`, as the code does). -/
def getBetRecommendation (s : MartingaleState) (current_balance : ℚ) :
    Option BetRecommendation × MartingaleState :=
  if s.is_active = false then (none, s)
  else
    let bet1 := Martingale15.get_bet s.banca_inicial s.dobra_atual current_balance
    let t1 := Martingale15.get_target s.dobra_atual
    ( some
        { strategy_name := "Martingale 8 Baixos - Dobra " ++ toString s.dobra_atual
        , bet_1 := bet1
        , target_1 := t1
        , bet_2 := 0
        , target_2 := 0
        , justification := "Dobra " ++ toString s.dobra_atual ++ "-8 >2.0x"
        , confidence := 1
        , ready := true }
    , { s with target_ativo := t1 } )

/-- `Martingale8LowPolicy.process_result`. -/
def processResult (s : MartingaleState) (explosion_value : ℚ) : MartingaleState :=
  if s.is_active = false then s
  else if explosion_value < s.target_ativo then
    let s1 := { s with perdas_consecutivas := s.perdas_consecutivas + 1 }
    if 4 ≤ s1.dobra_atual then resetCycle s1
    else { s1 with dobra_atual := s1.dobra_atual + 1 }
  else if s.target_ativo ≤ explosion_value ∧ explosion_value ≤ 199 / 100 then
    { s with dobra_atual := 2, perdas_consecutivas := 0, modo_continuo := true }
  else
    resetCycle s

end Martingale

/-! ## strategy_engine.py: MLHighConfidencePolicy -/

/-- `REQUIRED_HISTORY_FOR_PREDICTION` (learning_engine.py). -/
def requiredHistoryForPrediction : ℕ := 250

/-- Mutable state of `MLHighConfidencePolicy`.  The learning engine itself is
an external collaborator; its presence (`self.le`) and its `predict` answer
are passed explicitly to the functions below. -/
structure MLState where
  is_active : Bool
  last_calculated_prob : ℚ
  banca_inicial : ℚ
deriving DecidableEq

namespace MLState

/-- `MLHighConfidencePolicy.__init__`. -/
def init (banca_inicial : ℚ) : MLState :=
  { is_active := false, last_calculated_prob := 0, banca_inicial := banca_inicial }

end MLState

/-- `confidence_threshold = 0.80`. -/
def confidenceThreshold : ℚ := 80 / 100

/-- `bet_size_percent = 0.01`. -/
def betSizePercent : ℚ := 1 / 100

namespace MLPolicy

/-- The `bet_1 = max(1.0, current_balance * self.bet_size_percent)` line of
`get_bet_recommendation`. -/
def betSize (current_balance : ℚ) : ℚ := max 1 (current_balance * betSizePercent)

/-- `MLHighConfidencePolicy.check_trigger`.  `predict` is the external
collaborator call `self.le.predict`; `hasLE` is whether `self.le` is set. -/
def checkTrigger (predict : List ℚ → Option ℚ) (hasLE : Bool) (s : MLState)
    (history : List ℚ) : Bool × MLState :=
  if s.is_active || !hasLE then (false, s)
  else
    let recent := lastN requiredHistoryForPrediction history
    if recent.length < requiredHistoryForPrediction then
      (false, { s with last_calculated_prob := 0 })
    else
      match predict recent with
      | none => (false, { s with last_calculated_prob := 0 })
      | some probability =>
        let s1 := { s with last_calculated_prob := probability }
        if confidenceThreshold ≤ probability then
          (true, { s1 with is_active := true })
        else (false, s1)

/-- `MLHighConfidencePolicy.get_bet_recommendation` (it does not mutate the
policy state). -/
def getBetRecommendation (s : MLState) (current_balance : ℚ) :
    Option BetRecommendation :=
  if s.is_active = false then none
  else
    some
      { strategy_name := "ML High Confidence"
      , bet_1 := betSize current_balance
      , target_1 := 2
      , bet_2 := 0
      , target_2 := 0
      , justification := "Confianca do modelo > 80%"
      , confidence := confidenceThreshold
      , ready := true }

/-- `MLHighConfidencePolicy.process_result`: a single-shot policy, it
deactivates after any result while active. -/
def processResult (s : MLState) (explosion_value : ℚ) : MLState :=
  if s.is_active then { s with is_active := false } else s

end MLPolicy

/-! ## strategy_engine.py: StrategyEngine session/goal state -/

/-- The `modo_ciclo` string: the code tests `== "reinvestir"`, any other
value behaves as preserve. -/
inductive ModoCiclo where
  | reinvestir
  | preservar
deriving DecidableEq

/-- The `StrategyEngine` fields the session/goal lifecycle reads and writes.
The two policy objects of `self.policies` are the Martingale and ML states;
`self.explosion_history` is most-recent-last. -/
structure EngineState where
  explosion_history : List ℚ
  banca_inicial : Option ℚ
  suspenso_ate : Option ℚ
  meta_lucro_percentual : ℚ
  tempo_suspensao_horas : ℚ
  modo_ciclo : ModoCiclo
  banca_original_sessao : Option ℚ
  martingale : MartingaleState
  ml : MLState
deriving DecidableEq

namespace StrategyEngine

/-- `StrategyEngine.iniciar_sessao` (history and stats bookkeeping aside). -/
def iniciarSessao (history : List ℚ) (banca_inicial : ℚ) (meta_pct : ℚ)
    (tempo_suspensao : ℚ) (modo_ciclo : ModoCiclo) : EngineState :=
  { explosion_history := history
  , banca_inicial := some banca_inicial
  , suspenso_ate := none
  , meta_lucro_percentual := if meta_pct = 100 then 1 else meta_pct / 100
  , tempo_suspensao_horas := tempo_suspensao
  , modo_ciclo := modo_ciclo
  , banca_original_sessao := some banca_inicial
  , martingale := MartingaleState.init banca_inicial
  , ml := MLState.init banca_inicial }

/-- `StrategyEngine.esta_suspenso` at clock time `now`. -/
def estaSuspenso (s : EngineState) (now : ℚ) : Bool :=
  match s.suspenso_ate with
  | none => false
  | some t => decide (now < t)

/-- `StrategyEngine._reiniciar_ciclo_pos_meta`: reset the working bankroll per
cycle mode and recreate both policies from it (with the code's `0.0` fallback
when the chosen bankroll is undefined). -/
def reiniciarCicloPosMeta (s : EngineState) (saldo_atual : ℚ) : EngineState :=
  let banca : Option ℚ :=
    match s.modo_ciclo with
    | ModoCiclo.reinvestir => some saldo_atual
    | ModoCiclo.preservar => s.banca_original_sessao
  let banca_para_politica := banca.getD 0
  { s with banca_inicial := banca
         , martingale := MartingaleState.init banca_para_politica
         , ml := MLState.init banca_para_politica }

/-- `StrategyEngine.check_suspension_ended` at clock time `now`. -/
def checkSuspensionEnded (s : EngineState) (saldo_atual : ℚ) (now : ℚ) :
    Bool × EngineState :=
  match s.suspenso_ate with
  | none => (false, s)
  | some t =>
    if t ≤ now then
      (true, reiniciarCicloPosMeta { s with suspenso_ate := none } saldo_atual)
    else (false, s)

/-- `StrategyEngine.checar_meta_lucro` at clock time `now`.  `saldo_atual` is
optional because the code guards `saldo_atual is None`; `not self.banca_inicial`
is falsy both for `None` and for `0.0`. -/
def checarMetaLucro (s : EngineState) (saldo_atual : Option ℚ) (now : ℚ) :
    Bool × EngineState :=
  match s.banca_inicial, saldo_atual with
  | some banca, some saldo =>
    if banca = 0 then (false, s)
    else
      let meta := banca * (1 + s.meta_lucro_percentual)
      if meta ≤ saldo then
        if estaSuspenso s now = false then
          (true, { s with suspenso_ate := some (now + s.tempo_suspensao_horas * 3600) })
        else (true, s)
      else (false, s)
  | _, _ => (false, s)

/-- Number of `true` returns of `check_suspension_ended` over a sequence of
calls, each supplying a current balance and a clock time. -/
def suspensionRunCount (s : EngineState) : List (ℚ × ℚ) → ℕ
  | [] => 0
  | c :: rest =>
    let r := checkSuspensionEnded s c.1 c.2
    (if r.1 then 1 else 0) + suspensionRunCount r.2 rest

/-! ### evaluate_executed_bet and the controller's bet settlement -/

/-- The `executed_bet_pending` dict the controller records on submission. -/
structure ExecutedBet where
  strategy : String
  bet_1 : ℚ
  target_1 : ℚ
  bet_2 : ℚ
  target_2 : ℚ
deriving DecidableEq

/-- The dict returned by `StrategyEngine.evaluate_executed_bet`: exactly the
keys the code writes (note there is no profit/loss key). -/
structure BetEvalResult where
  explosion_value : ℚ
  recommendation_hit : Bool
  target_1 : ℚ
  bet_1 : ℚ
  strategy : String
  phase : String
deriving DecidableEq

/-- `StrategyEngine.evaluate_executed_bet` (the hit/miss stats side effect on
`strategy_stats` is bookkeeping the claims do not touch and is dropped). -/
def evaluateExecutedBet (explosion_value : ℚ) (executed_bet : ExecutedBet) :
    BetEvalResult :=
  { explosion_value := explosion_value
  , recommendation_hit :=
      if 0 < executed_bet.target_1 then decide (executed_bet.target_1 ≤ explosion_value)
      else false
  , target_1 := executed_bet.target_1
  , bet_1 := executed_bet.bet_1
  , strategy := executed_bet.strategy
  , phase := "N/A" }

/-- `result.get("profit_loss", 0.0)` in `BotController._process_bet_evaluation`:
`BetEvalResult` carries no profit/loss field, so the lookup always yields the
default `0.0`. -/
def resultProfitLoss (result : BetEvalResult) : ℚ := 0

/-- The fields of the `BetData` record the controller saves for the settled
wager (database/session ids and timestamps aside). -/
structure BetData where
  estrategia : String
  aposta_1 : ℚ
  target_1 : ℚ
  resultado_1_hit : Bool
  lucro_liquido : ℚ
deriving DecidableEq

/-- `BotController._process_bet_evaluation`: evaluate the pending wager against
the new outcome and build the saved record. -/
def processBetEvaluation (explosion_value : ℚ) (executed_bet : ExecutedBet) :
    BetData :=
  let result := evaluateExecutedBet explosion_value executed_bet
  { estrategia := result.strategy
  , aposta_1 := result.bet_1
  , target_1 := result.target_1
  , resultado_1_hit := result.recommendation_hit
  , lucro_liquido := resultProfitLoss result }

end StrategyEngine

/-! ## bot_controller.py: balance validation and stop-loss -/

namespace BotController

/-- `balance_change_threshold_pct` default. -/
def balanceChangeThresholdPct : ℚ := 30

/-- `stop_loss_threshold_pct` default. -/
def stopLossThresholdPct : ℚ := 1 / 2

/-- `BotController._validate_and_confirm_balance_change`.  `current_balance`
is optional (no prior reading); `confirm_read` is what the second
`vision.get_balance` call returns when a confirmation is attempted (`none`
covers both a failed read and a missing capture area). -/
def validateAndConfirmBalanceChange (threshold_pct : ℚ) (new_balance : ℚ)
    (current_balance : Option ℚ) (confirm_read : Option ℚ) : Option ℚ :=
  match current_balance with
  | none => some new_balance
  | some cur =>
    if cur = 0 then some new_balance
    else if |new_balance - cur| / cur * 100 ≤ threshold_pct then some new_balance
    else
        match confirm_read with
        | none => none
        | some confirmed =>
          if confirmed = 0 then none
          else if 5 < |confirmed - new_balance| then none
          else some confirmed

/-- One accepted-or-rejected balance update of `detect_balance_continuously`:
`current_balance` is overwritten only when validation accepts. -/
def balanceUpdateStep (current_balance : Option ℚ) (reading : ℚ)
    (confirm_read : Option ℚ) : Option ℚ :=
  match validateAndConfirmBalanceChange balanceChangeThresholdPct reading
      current_balance confirm_read with
  | some v => some v
  | none => current_balance

/-- `BotController._check_and_trigger_stop_loss`: returns (alert fired?,
new `stop_loss_alerted` flag). -/
def checkAndTriggerStopLoss (pct : ℚ) (alerted : Bool)
    (current_balance initial_balance : ℚ) : Bool × Bool :=
  if alerted then (false, alerted)
  else if 0 < initial_balance ∧ current_balance < initial_balance * (1 - pct)
  then (true, true)
  else (false, alerted)

/-- Number of stop-loss alerts fired over a sequence of accepted balance
updates. -/
def stopLossRunCount (pct initial_balance : ℚ) (alerted : Bool) :
    List ℚ → ℕ
  | [] => 0
  | cur :: rest =>
    let r := checkAndTriggerStopLoss pct alerted cur initial_balance
    (if r.1 then 1 else 0) + stopLossRunCount pct initial_balance r.2 rest

/-- The `bet_value_1 = max(1.0, bet_value_1)` floor of
`fill_bet_fields_and_submit`. -/
def submittedBetValue (bet_value_1 : ℚ) : ℚ := max 1 bet_value_1

end BotController

/-! ## Spec-side definitions used by refinement-style statements -/

/-- The stage multiplier sequence 1, 2, 4, 8 named by the spec
(stage index 1 to 4). -/
def stageMultiplier : ℕ → ℚ
  | 1 => 1
  | 2 => 2
  | 3 => 4
  | 4 => 8
  | _ => 1

/-- Modelled from the amended C2 wording: accept unconditionally with no
usable prior; accept immediately when the relative change `|candidate-cur|/cur`
is at most the threshold; strictly above the threshold accept exactly a
non-zero second reading that agrees with the candidate within the absolute
tolerance, storing the confirmed value; otherwise reject. -/
def specBalanceAcceptance (threshold tolerance : ℚ) (candidate : ℚ)
    (prior : Option ℚ) (second : Option ℚ) : Option ℚ :=
  match prior with
  | none => some candidate
  | some cur =>
    if cur = 0 then some candidate
    else if |candidate - cur| / cur ≤ threshold then some candidate
    else
      match second with
      | none => none
      | some r => if r ≠ 0 ∧ |r - candidate| ≤ tolerance then some r else none

/-! ## Helper lemmas -/

theorem Martingale15.get_bet_ge_one (banca : ℚ) (dobra : ℕ) (banca_atual : ℚ) :
    1 ≤ Martingale15.get_bet banca dobra banca_atual := by
  rcases dobra with _ | _ | _ | _ | _ | n
  all_goals exact le_max_left 1 _

theorem Martingale.updateAlertFlag_is_active (s : MartingaleState) (lows : ℕ) :
    (Martingale.updateAlertFlag s lows).is_active = s.is_active := by
  unfold Martingale.updateAlertFlag
  repeat' split
  all_goals rfl

theorem Martingale.updateAlertFlag_lows_needed (s : MartingaleState) (lows : ℕ) :
    (Martingale.updateAlertFlag s lows).lows_needed = s.lows_needed := by
  unfold Martingale.updateAlertFlag
  repeat' split
  all_goals rfl

theorem StrategyEngine.suspensionRunCount_of_none (s : EngineState)
    (calls : List (ℚ × ℚ)) (hs : s.suspenso_ate = none) :
    StrategyEngine.suspensionRunCount s calls = 0 := by
  induction calls generalizing s with
  | nil => rfl
  | cons c rest ih =>
    unfold StrategyEngine.suspensionRunCount StrategyEngine.checkSuspensionEnded
    rw [hs]
    simpa using ih s hs

theorem StrategyEngine.suspensionRunCount_le_one (s : EngineState)
    (calls : List (ℚ × ℚ)) :
    StrategyEngine.suspensionRunCount s calls ≤ 1 := by
  induction calls generalizing s with
  | nil => simp [StrategyEngine.suspensionRunCount]
  | cons c rest ih =>
    unfold StrategyEngine.suspensionRunCount StrategyEngine.checkSuspensionEnded
    rcases h : s.suspenso_ate with _ | t
    · simpa using ih s
    · by_cases hle : t ≤ c.2
      · have hnone :
            (StrategyEngine.reiniciarCicloPosMeta
                { s with suspenso_ate := none } c.1).suspenso_ate = none := rfl
        simp [hle, StrategyEngine.suspensionRunCount_of_none _ rest hnone]
      · simpa [hle] using ih s

theorem BotController.stopLossRunCount_of_alerted (pct initial : ℚ)
    (updates : List ℚ) :
    BotController.stopLossRunCount pct initial true updates = 0 := by
  induction updates with
  | nil => rfl
  | cons cur rest ih =>
    unfold BotController.stopLossRunCount BotController.checkAndTriggerStopLoss
    simpa using ih

theorem BotController.stopLossRunCount_le_one (pct initial : ℚ) (alerted : Bool)
    (updates : List ℚ) :
    BotController.stopLossRunCount pct initial alerted updates ≤ 1 := by
  induction updates generalizing alerted with
  | nil => simp [BotController.stopLossRunCount]
  | cons cur rest ih =>
    unfold BotController.stopLossRunCount BotController.checkAndTriggerStopLoss
    rcases alerted with _ | _
    · by_cases hc : 0 < initial ∧ cur < initial * (1 - pct)
      · rw [if_neg (by simp), if_pos hc]
        simp [BotController.stopLossRunCount_of_alerted]
      · rw [if_neg (by simp), if_neg hc]
        simpa using ih false
    · simpa using ih true

/-! ## Claim theorems -/

/-- Claim C3: whenever the consecutive-lows trigger count is satisfied but the
most recent 20 outcomes have standard deviation < 2.3 (stated as population
variance < 2.3^2) or mean < 2.5, the StagedMartingale safety gate vetoes the
trigger: `check_trigger` returns false and the policy stays idle. -/
theorem C3_safety_gate_vetoes_trigger (s : MartingaleState) (history : List ℚ)
    (hidle : s.is_active = false)
    (hlen : 20 ≤ history.length)
    (hlows : s.lows_needed ≤ countConsecutiveLows lowThreshold history)
    (hdanger : popVariance (lastN 20 history) < 529 / 100 ∨
        mean (lastN 20 history) < 5 / 2) :
    (Martingale.checkTrigger s history).1 = false ∧
    ((Martingale.checkTrigger s history).2).is_active = false := by
  have hsafe : checkSafetyConditions history = false := by
    unfold checkSafetyConditions
    rw [if_neg (by omega)]
    rcases hdanger with h | h <;> simp [h]
  unfold Martingale.checkTrigger
  rw [if_neg (by simp [hidle])]
  unfold Martingale.handleTriggerCondition
  rw [if_pos (by rw [Martingale.updateAlertFlag_lows_needed]; exact hlows)]
  rw [if_neg (by simp [hsafe])]
  exact ⟨rfl, by rw [Martingale.updateAlertFlag_is_active]; exact hidle⟩

/-- Witness for C3: an idle policy, 20 outcomes all equal to 1.1 (20
consecutive lows, variance 0 < 5.29, mean 1.1 < 2.5): no activation. -/
theorem C3_safety_gate_vetoes_trigger_witness :
    (Martingale.checkTrigger (MartingaleState.init 100)
        (List.replicate 20 (11 / 10))).1 = false :=
  (C3_safety_gate_vetoes_trigger (MartingaleState.init 100)
      (List.replicate 20 (11 / 10)) rfl (by norm_num)
      (by norm_num [MartingaleState.init, countConsecutiveLows, List.replicate,
        List.takeWhile, lowThreshold, decide_eq_true_eq])
      (Or.inl (by norm_num [lastN, popVariance, mean, List.replicate]))).1

/-- Claim C9: the stop-loss alert fires exactly when an accepted balance
update leaves the balance below `initial * (1 - fraction)` while the alerted
flag is unset; firing latches the flag, a latched session fires no further
alerts, and over any sequence of accepted updates at most one alert fires. -/
theorem C9_stop_loss_fires_at_most_once (pct current initial : ℚ)
    (alerted : Bool) (hinit : 0 < initial) :
    ((BotController.checkAndTriggerStopLoss pct alerted current initial).1 = true ↔
        (alerted = false ∧ current < initial * (1 - pct))) ∧
    ((BotController.checkAndTriggerStopLoss pct alerted current initial).1 = true →
        (BotController.checkAndTriggerStopLoss pct alerted current initial).2 = true) ∧
    (∀ updates : List ℚ,
        BotController.stopLossRunCount pct initial true updates = 0) ∧
    (∀ updates : List ℚ,
        BotController.stopLossRunCount pct initial alerted updates ≤ 1) := by
  refine ⟨?_, ?_, fun updates => BotController.stopLossRunCount_of_alerted pct initial updates,
    fun updates => BotController.stopLossRunCount_le_one pct initial alerted updates⟩
  · unfold BotController.checkAndTriggerStopLoss
    rcases alerted with _ | _
    · by_cases hc : 0 < initial ∧ current < initial * (1 - pct)
      · simp [hc, hc.2]
      · simp only [Bool.false_eq_true, if_false, if_neg hc]
        simp only [false_iff]
        intro hcontra
        exact hc ⟨hinit, hcontra.2⟩
    · simp
  · unfold BotController.checkAndTriggerStopLoss
    rcases alerted with _ | _
    · by_cases hc : 0 < initial ∧ current < initial * (1 - pct)
      · simp [hc]
      · simp [hc]
    · simp

/-- Witness for C9: fraction 0.5, initial 100, balance 49 with the flag unset
fires the alert; over the update run 49, 40, 30 at most one alert fires. -/
theorem C9_stop_loss_fires_at_most_once_witness :
    (BotController.checkAndTriggerStopLoss (1 / 2) false 49 100).1 = true ∧
    BotController.stopLossRunCount (1 / 2) 100 false [49, 40, 30] ≤ 1 ∧
    (BotController.checkAndTriggerStopLoss (1 / 2) false 49 100).2 = true :=
  ⟨(C9_stop_loss_fires_at_most_once (1 / 2) 49 100 false (by norm_num)).1.mpr
      ⟨rfl, by norm_num⟩,
   (C9_stop_loss_fires_at_most_once (1 / 2) 49 100 false (by norm_num)).2.2.2
      [49, 40, 30],
   (C9_stop_loss_fires_at_most_once (1 / 2) 49 100 false (by norm_num)).2.1
     ((C9_stop_loss_fires_at_most_once (1 / 2) 49 100 false (by norm_num)).1.mpr
       ⟨rfl, by norm_num⟩)⟩

/-- Claim C10: every wager amount the engine produces or submits is floored at
1.0: the StagedMartingale stake for every bankroll and stage, the
ConfidenceGated bet size for every balance, and the value the submission path
writes into the bet field. -/
theorem C10_minimum_wager_floor :
    (∀ banca dobra banca_atual, 1 ≤ Martingale15.get_bet banca dobra banca_atual) ∧
    (∀ balance, MLPolicy.betSize balance = max 1 (balance * betSizePercent) ∧
        1 ≤ MLPolicy.betSize balance) ∧
    (∀ v, BotController.submittedBetValue v = max 1 v ∧
        1 ≤ BotController.submittedBetValue v) :=
  ⟨fun banca dobra banca_atual => Martingale15.get_bet_ge_one banca dobra banca_atual,
   fun balance => ⟨rfl, le_max_left 1 _⟩,
   fun v => ⟨rfl, le_max_left 1 _⟩⟩

/-- Claim C1 (code bug): on the spec scenario stake 10 target 1.9, the hit
flag is computed as outcome ≥ target exactly as claimed, but the recorded
profit/loss is 0.0 both on the hit (claim: +9.0 = 10*1.9-10) and on the miss
(claim: -10): the evaluation dict carries no profit/loss key, so the
controller records the 0.0 default. -/
theorem C1_recorded_profit_always_zero :
    (StrategyEngine.processBetEvaluation (41 / 20)
        ⟨"Martingale 8 Baixos - Dobra 1", 10, 19 / 10, 0, 0⟩).resultado_1_hit = true ∧
    (StrategyEngine.processBetEvaluation (37 / 20)
        ⟨"Martingale 8 Baixos - Dobra 1", 10, 19 / 10, 0, 0⟩).resultado_1_hit = false ∧
    (StrategyEngine.processBetEvaluation (41 / 20)
        ⟨"Martingale 8 Baixos - Dobra 1", 10, 19 / 10, 0, 0⟩).lucro_liquido = 0 ∧
    (StrategyEngine.processBetEvaluation (37 / 20)
        ⟨"Martingale 8 Baixos - Dobra 1", 10, 19 / 10, 0, 0⟩).lucro_liquido = 0 ∧
    (10 * (19 / 10) - 10 : ℚ) = 9 ∧ (0 : ℚ) ≠ 9 ∧ (0 : ℚ) ≠ -10 := by
  refine ⟨?_, ?_, rfl, rfl, by norm_num, by norm_num, by norm_num⟩
  · norm_num [StrategyEngine.processBetEvaluation, StrategyEngine.evaluateExecutedBet]
  · norm_num [StrategyEngine.processBetEvaluation, StrategyEngine.evaluateExecutedBet]

/-- Claim C2 (amended): the code's acceptance rule coincides with the
spec-worded rule with an inclusive immediate-accept boundary (accepted
immediately when the relative change is at most the threshold, confirmation
required strictly above it, a confirming second reading must additionally be
non-zero); a rejected reading leaves the prior balance unchanged. -/
theorem C2_balance_validation_refines_spec (new_balance : ℚ)
    (current_balance confirm_read : Option ℚ) :
    BotController.validateAndConfirmBalanceChange
        BotController.balanceChangeThresholdPct new_balance current_balance
        confirm_read
      = specBalanceAcceptance (30 / 100) 5 new_balance current_balance
          confirm_read ∧
    (BotController.validateAndConfirmBalanceChange
        BotController.balanceChangeThresholdPct new_balance current_balance
        confirm_read = none →
      BotController.balanceUpdateStep current_balance new_balance confirm_read
        = current_balance) := by
  constructor
  · unfold BotController.validateAndConfirmBalanceChange specBalanceAcceptance
      BotController.balanceChangeThresholdPct
    rcases current_balance with _ | cur
    · rfl
    · dsimp only
      by_cases hc : cur = 0
      · rw [if_pos hc, if_pos hc]
      · rw [if_neg hc, if_neg hc]
        have hiff : (|new_balance - cur| / cur * 100 ≤ 30) ↔
            (|new_balance - cur| / cur ≤ 30 / 100) := by
          constructor <;> intro h <;> linarith
        by_cases hth : |new_balance - cur| / cur * 100 ≤ 30
        · rw [if_pos hth, if_pos (hiff.mp hth)]
        · rw [if_neg hth, if_neg (fun hx => hth (hiff.mpr hx))]
          rcases confirm_read with _ | r
          · rfl
          · dsimp only
            by_cases hr : r = 0
            · rw [if_pos hr, if_neg (by simp [hr])]
            · by_cases htol : 5 < |r - new_balance|
              · rw [if_neg hr, if_pos htol,
                  if_neg (by rintro ⟨_, hx⟩; linarith)]
              · rw [if_neg hr, if_neg htol, if_pos ⟨hr, by linarith⟩]
  · intro hnone
    unfold BotController.balanceUpdateStep
    rw [hnone]

/-- Witness for C2: candidate 260 against prior 98 (a 165% change) with a
disagreeing second reading 150 is rejected and the prior balance is kept. -/
theorem C2_balance_validation_refines_spec_witness :
    BotController.validateAndConfirmBalanceChange
        BotController.balanceChangeThresholdPct 260 (some 98) (some 150)
      = specBalanceAcceptance (30 / 100) 5 260 (some 98) (some 150) ∧
    BotController.balanceUpdateStep (some 98) 260 (some 150) = some 98 :=
  ⟨(C2_balance_validation_refines_spec 260 (some 98) (some 150)).1,
   (C2_balance_validation_refines_spec 260 (some 98) (some 150)).2
     (by norm_num [BotController.validateAndConfirmBalanceChange,
        BotController.balanceChangeThresholdPct])⟩

/-- Claim C2 counterexample: with prior balance 100 the candidate 130 sits
exactly at the 30% relative-change threshold; the code accepts it immediately
although no second reading exists, while the claim requires confirmation at
or above the threshold (and rejection when none agrees). -/
theorem C2_counterexample :
    BotController.validateAndConfirmBalanceChange
        BotController.balanceChangeThresholdPct 130 (some 100) none
      = some 130 ∧
    |(130 : ℚ) - 100| / 100 = 30 / 100 := by
  constructor
  · norm_num [BotController.validateAndConfirmBalanceChange,
      BotController.balanceChangeThresholdPct]
  · norm_num

/-- Claim C4 (amended): for an active StagedMartingale policy, a result below
the active target increments the stage (with a full reset at max stage 4), a
result in [target, 1.99] resets the stage to 2 and sets continuous mode, and
a result ≥ 2.0 (the reachable targets are ≤ 1.99) fully resets to idle and
stage 1; the trigger count `lows_needed` is never changed by result
processing — no new trigger count is drawn. -/
theorem C4_process_result_state_machine (s : MartingaleState) (v : ℚ)
    (hact : s.is_active = true) :
    (v < s.target_ativo → s.dobra_atual < 4 →
        Martingale.processResult s v =
          { s with perdas_consecutivas := s.perdas_consecutivas + 1
                 , dobra_atual := s.dobra_atual + 1 }) ∧
    (v < s.target_ativo → 4 ≤ s.dobra_atual →
        Martingale.processResult s v = Martingale.resetCycle s) ∧
    (s.target_ativo ≤ v → v ≤ 199 / 100 →
        Martingale.processResult s v =
          { s with dobra_atual := 2, perdas_consecutivas := 0
                 , modo_continuo := true }) ∧
    (s.target_ativo ≤ 199 / 100 → 2 ≤ v →
        Martingale.processResult s v = Martingale.resetCycle s) ∧
    (∀ w, (Martingale.processResult s w).lows_needed = s.lows_needed) := by
  refine ⟨?_, ?_, ?_, ?_, ?_⟩
  · intro hv hd
    unfold Martingale.processResult
    rw [if_neg (by simp [hact]), if_pos hv, if_neg (by simp; omega)]
  · intro hv hd
    unfold Martingale.processResult
    rw [if_neg (by simp [hact]), if_pos hv, if_pos (by simpa using hd)]
    rfl
  · intro h1 h2
    unfold Martingale.processResult
    rw [if_neg (by simp [hact]), if_neg (not_lt.mpr h1), if_pos ⟨h1, h2⟩]
  · intro ht h2
    unfold Martingale.processResult
    rw [if_neg (by simp [hact]), if_neg (not_lt.mpr (by linarith)),
      if_neg (by rintro ⟨_, hx⟩; linarith)]
  · intro w
    unfold Martingale.processResult
    dsimp only
    repeat' split
    all_goals rfl

/-- Witness for C4: with target 1.84, outcome 1.5 at stage 3 is a loss that
moves to stage 4; outcome 1.5 at stage 4 is a loss at max stage (full reset);
outcome 1.9 is a partial win (back to stage 2, continuous mode); outcome 2.05
is a full win (full reset). -/
theorem C4_process_result_state_machine_witness :
    Martingale.processResult ⟨true, 3, 0, false, 184 / 100, 8, false, 100⟩
        (3 / 2)
      = ⟨true, 4, 1, false, 184 / 100, 8, false, 100⟩ ∧
    Martingale.processResult ⟨true, 4, 1, false, 184 / 100, 8, false, 100⟩
        (3 / 2)
      = Martingale.resetCycle ⟨true, 4, 1, false, 184 / 100, 8, false, 100⟩ ∧
    Martingale.processResult ⟨true, 3, 0, false, 184 / 100, 8, false, 100⟩
        (19 / 10)
      = ⟨true, 2, 0, true, 184 / 100, 8, false, 100⟩ ∧
    Martingale.processResult ⟨true, 3, 0, false, 184 / 100, 8, false, 100⟩
        (41 / 20)
      = Martingale.resetCycle ⟨true, 3, 0, false, 184 / 100, 8, false, 100⟩ :=
  ⟨(C4_process_result_state_machine
      ⟨true, 3, 0, false, 184 / 100, 8, false, 100⟩ (3 / 2) rfl).1
    (by norm_num) (by norm_num),
   (C4_process_result_state_machine
      ⟨true, 4, 1, false, 184 / 100, 8, false, 100⟩ (3 / 2) rfl).2.1
    (by norm_num) (by norm_num),
   (C4_process_result_state_machine
      ⟨true, 3, 0, false, 184 / 100, 8, false, 100⟩ (19 / 10) rfl).2.2.1
    (by norm_num) (by norm_num),
   (C4_process_result_state_machine
      ⟨true, 3, 0, false, 184 / 100, 8, false, 100⟩ (41 / 20) rfl).2.2.2.1
    (by norm_num) (by norm_num)⟩

/-- Claim C4 counterexample: a full win (outcome 2.05 ≥ 2.0) at stage 3 fully
resets the policy to idle/stage 1, but the trigger count is exactly the
construction-time constant 8 before and after — result processing is a pure
function of state and outcome, and no new random trigger count is drawn. -/
theorem C4_counterexample :
    Martingale.processResult ⟨true, 3, 2, false, 184 / 100, 8, false, 100⟩
        (41 / 20)
      = ⟨false, 1, 0, false, 0, 8, false, 100⟩ ∧
    (Martingale.processResult ⟨true, 3, 2, false, 184 / 100, 8, false, 100⟩
        (41 / 20)).lows_needed
      = (⟨true, 3, 2, false, 184 / 100, 8, false, 100⟩ : MartingaleState).lows_needed := by
  constructor
  · norm_num [Martingale.processResult, Martingale.resetCycle]
  · norm_num [Martingale.processResult, Martingale.resetCycle]

/-- Claim C5 (amended): for stages 1..4 and any bankroll and current balance,
the StagedMartingale stake equals `max(1.0, round2(bankroll/15 * multiplier))`
with multipliers 1, 2, 4, 8 — the base-unit product only up to the rounding
and the 1.0 floor — and the exit target is the fixed constant 1.84 (inside
[1.81, 1.95] but not drawn at random). -/
theorem C5_staged_sizing (banca banca_atual : ℚ) (dobra : ℕ)
    (h1 : 1 ≤ dobra) (h4 : dobra ≤ 4) :
    Martingale15.get_bet banca dobra banca_atual
        = max 1 (round2 (banca / 15 * stageMultiplier dobra)) ∧
    Martingale15.get_target dobra = 184 / 100 := by
  interval_cases dobra <;> exact ⟨rfl, rfl⟩

/-- Witness for C5: bankroll 10 at stage 2. -/
theorem C5_staged_sizing_witness :
    Martingale15.get_bet 10 2 10 = max 1 (round2 (10 / 15 * stageMultiplier 2)) ∧
    Martingale15.get_target 2 = 184 / 100 :=
  C5_staged_sizing 10 10 2 (by norm_num) (by norm_num)

/-- Claim C5 counterexample: with bankroll 10 the stage-1 and stage-2 stakes
are 1.00 and 1.33, and 1.33 ≠ 2 * 1.00, so no fixed base unit b satisfies
stake = b * multiplier across the stages; and the exit target is the same
constant 1.84 at every stage, not a per-wager random draw in [1.81, 1.95]. -/
theorem C5_counterexample :
    Martingale15.get_bet 10 1 10 = 1 ∧
    Martingale15.get_bet 10 2 10 = 133 / 100 ∧
    (133 / 100 : ℚ) ≠ 2 * 1 ∧
    Martingale15.get_target 1 = Martingale15.get_target 2 ∧
    Martingale15.get_target 1 = 184 / 100 := by
  refine ⟨?_, ?_, by norm_num, rfl, rfl⟩
  · norm_num [Martingale15.get_bet, Martingale15.valores_fixos,
      Martingale15.multipliers, List.lookup, round2, roundHalfEven]
  · norm_num [Martingale15.get_bet, Martingale15.valores_fixos,
      Martingale15.multipliers, List.lookup, round2, roundHalfEven]
    rfl

/-- Claim C6 (amended): with a defined non-zero initial bankroll,
`checar_meta_lucro` returns true exactly when the balance is at or above
`initial * (1 + goal_fraction)`; on such a round it sets the suspension
deadline `now + hours * 3600` if not already suspended and leaves the state
unchanged otherwise.  It does not keep returning true during the suspension
regardless of the balance: on a round with the balance back below the target
it returns false even before the suspension expires. -/
theorem C6_profit_target (s : EngineState) (banca saldo now : ℚ)
    (hb : s.banca_inicial = some banca) (hb0 : banca ≠ 0) :
    ((StrategyEngine.checarMetaLucro s (some saldo) now).1 = true ↔
        banca * (1 + s.meta_lucro_percentual) ≤ saldo) ∧
    (banca * (1 + s.meta_lucro_percentual) ≤ saldo →
        StrategyEngine.estaSuspenso s now = false →
        (StrategyEngine.checarMetaLucro s (some saldo) now).2.suspenso_ate
          = some (now + s.tempo_suspensao_horas * 3600)) ∧
    (banca * (1 + s.meta_lucro_percentual) ≤ saldo →
        StrategyEngine.estaSuspenso s now = true →
        (StrategyEngine.checarMetaLucro s (some saldo) now).2 = s) ∧
    (¬ banca * (1 + s.meta_lucro_percentual) ≤ saldo →
        (StrategyEngine.checarMetaLucro s (some saldo) now).2 = s) := by
  unfold StrategyEngine.checarMetaLucro
  rw [hb]
  dsimp only
  rw [if_neg hb0]
  refine ⟨?_, ?_, ?_, ?_⟩
  · by_cases hm : banca * (1 + s.meta_lucro_percentual) ≤ saldo
    · rw [if_pos hm]
      by_cases hsusp : StrategyEngine.estaSuspenso s now = false
      · rw [if_pos hsusp]; simpa using hm
      · rw [if_neg hsusp]; simpa using hm
    · rw [if_neg hm]; simpa using hm
  · intro hm hsusp
    rw [if_pos hm, if_pos hsusp]
  · intro hm hsusp
    rw [if_pos hm, if_neg (by simp [hsusp])]
  · intro hm
    rw [if_neg hm]

/-- Witness for C6: session started at bankroll 100 with a 40% goal; balance
140 reaches the target and suspends until 14400 (4 hours in seconds). -/
theorem C6_profit_target_witness :
    (StrategyEngine.checarMetaLucro
        (StrategyEngine.iniciarSessao [] 100 40 4 ModoCiclo.reinvestir)
        (some 140) 0).1 = true ∧
    ((StrategyEngine.checarMetaLucro
        (StrategyEngine.iniciarSessao [] 100 40 4 ModoCiclo.reinvestir)
        (some 140) 0).2).suspenso_ate
      = some (0 + (StrategyEngine.iniciarSessao [] 100 40 4
          ModoCiclo.reinvestir).tempo_suspensao_horas * 3600) ∧
    (StrategyEngine.checarMetaLucro
        (StrategyEngine.iniciarSessao [] 100 40 4 ModoCiclo.reinvestir)
        (some 100) 0).2
      = StrategyEngine.iniciarSessao [] 100 40 4 ModoCiclo.reinvestir :=
  ⟨(C6_profit_target (StrategyEngine.iniciarSessao [] 100 40 4 ModoCiclo.reinvestir)
      100 140 0 rfl (by norm_num)).1.mpr
    (by norm_num [StrategyEngine.iniciarSessao]),
   (C6_profit_target (StrategyEngine.iniciarSessao [] 100 40 4 ModoCiclo.reinvestir)
      100 140 0 rfl (by norm_num)).2.1
    (by norm_num [StrategyEngine.iniciarSessao]) rfl,
   (C6_profit_target (StrategyEngine.iniciarSessao [] 100 40 4 ModoCiclo.reinvestir)
      100 100 0 rfl (by norm_num)).2.2.2
    (by norm_num [StrategyEngine.iniciarSessao])⟩

/-- Claim C6 counterexample: bankroll 100, goal 40%: balance 140 returns true
and suspends until time 14400; on the next round at time 100 (suspension far
from expired) with balance 100 the call returns false — not "true every round
thereafter until the suspension expires". -/
theorem C6_counterexample :
    (StrategyEngine.checarMetaLucro
        (StrategyEngine.iniciarSessao [] 100 40 4 ModoCiclo.reinvestir)
        (some 140) 0).1 = true ∧
    ((StrategyEngine.checarMetaLucro
        (StrategyEngine.iniciarSessao [] 100 40 4 ModoCiclo.reinvestir)
        (some 140) 0).2).suspenso_ate = some 14400 ∧
    StrategyEngine.estaSuspenso
        ((StrategyEngine.checarMetaLucro
            (StrategyEngine.iniciarSessao [] 100 40 4 ModoCiclo.reinvestir)
            (some 140) 0).2) 100 = true ∧
    (StrategyEngine.checarMetaLucro
        ((StrategyEngine.checarMetaLucro
            (StrategyEngine.iniciarSessao [] 100 40 4 ModoCiclo.reinvestir)
            (some 140) 0).2) (some 100) 100).1 = false := by
  refine ⟨?_, ?_, ?_, ?_⟩ <;>
    norm_num [StrategyEngine.checarMetaLucro, StrategyEngine.iniciarSessao,
      StrategyEngine.estaSuspenso]

/-- Claim C7 (amended): `check_suspension_ended` returns true exactly on the
first call at or past the deadline — over any sequence of calls at most one
returns true — and on that edge it clears the suspension, resets the initial
bankroll to the current balance (reinvest) or the original session bankroll
(preserve), and recreates both policies from the new bankroll; the
profit-target fraction is left unchanged (it is not redrawn). -/
theorem C7_suspension_end (s : EngineState) (t saldo now : ℚ)
    (hs : s.suspenso_ate = some t) :
    (t ≤ now →
        (StrategyEngine.checkSuspensionEnded s saldo now).1 = true ∧
        (StrategyEngine.checkSuspensionEnded s saldo now).2.suspenso_ate = none ∧
        (StrategyEngine.checkSuspensionEnded s saldo now).2.banca_inicial =
          (match s.modo_ciclo with
            | ModoCiclo.reinvestir => some saldo
            | ModoCiclo.preservar => s.banca_original_sessao) ∧
        (StrategyEngine.checkSuspensionEnded s saldo now).2.martingale =
          MartingaleState.init
            ((match s.modo_ciclo with
              | ModoCiclo.reinvestir => some saldo
              | ModoCiclo.preservar => s.banca_original_sessao).getD 0) ∧
        (StrategyEngine.checkSuspensionEnded s saldo now).2.ml =
          MLState.init
            ((match s.modo_ciclo with
              | ModoCiclo.reinvestir => some saldo
              | ModoCiclo.preservar => s.banca_original_sessao).getD 0) ∧
        (StrategyEngine.checkSuspensionEnded s saldo now).2.meta_lucro_percentual
          = s.meta_lucro_percentual) ∧
    (now < t → StrategyEngine.checkSuspensionEnded s saldo now = (false, s)) ∧
    (∀ s0 calls, StrategyEngine.suspensionRunCount s0 calls ≤ 1) := by
  refine ⟨?_, ?_, fun s0 calls => StrategyEngine.suspensionRunCount_le_one s0 calls⟩
  · intro ht
    unfold StrategyEngine.checkSuspensionEnded
    rw [hs]
    dsimp only
    rw [if_pos ht]
    unfold StrategyEngine.reiniciarCicloPosMeta
    dsimp only
    rcases hm : s.modo_ciclo with _ | _ <;> simp [hm]
  · intro hlt
    unfold StrategyEngine.checkSuspensionEnded
    rw [hs]
    dsimp only
    rw [if_neg (not_le.mpr hlt)]

/-- Witness for C7: a reinvest-mode session suspended until time 1000: at time
2000 the call reports the transition, at time 900 it reports nothing and
leaves the state untouched. -/
theorem C7_suspension_end_witness :
    (StrategyEngine.checkSuspensionEnded
        { StrategyEngine.iniciarSessao [] 100 140 4 ModoCiclo.reinvestir with
            suspenso_ate := some 1000 } 500 2000).1 = true ∧
    StrategyEngine.checkSuspensionEnded
        { StrategyEngine.iniciarSessao [] 100 140 4 ModoCiclo.reinvestir with
            suspenso_ate := some 1000 } 500 900
      = (false,
          { StrategyEngine.iniciarSessao [] 100 140 4 ModoCiclo.reinvestir with
              suspenso_ate := some 1000 }) :=
  ⟨((C7_suspension_end
        { StrategyEngine.iniciarSessao [] 100 140 4 ModoCiclo.reinvestir with
            suspenso_ate := some 1000 } 1000 500 2000 rfl).1 (by norm_num)).1,
   (C7_suspension_end
        { StrategyEngine.iniciarSessao [] 100 140 4 ModoCiclo.reinvestir with
            suspenso_ate := some 1000 } 1000 500 900 rfl).2.1 (by norm_num)⟩

/-- Claim C7 counterexample: a session with profit-target fraction 1.4
(140%) suspended until time 1000: the expiry transition at time 2000 fires,
yet the profit-target fraction after the transition is exactly the old 1.4 —
the transition is a deterministic function that never rewrites the fraction,
so no redraw within a risk band happens. -/
theorem C7_counterexample :
    (StrategyEngine.checkSuspensionEnded
        { StrategyEngine.iniciarSessao [] 100 140 4 ModoCiclo.reinvestir with
            suspenso_ate := some 1000 } 500 2000).1 = true ∧
    (StrategyEngine.checkSuspensionEnded
        { StrategyEngine.iniciarSessao [] 100 140 4 ModoCiclo.reinvestir with
            suspenso_ate := some 1000 } 500 2000).2.meta_lucro_percentual
      = 7 / 5 ∧
    (StrategyEngine.iniciarSessao [] 100 140 4
        ModoCiclo.reinvestir).meta_lucro_percentual = 7 / 5 := by
  refine ⟨?_, ?_, ?_⟩ <;>
    norm_num [StrategyEngine.checkSuspensionEnded,
      StrategyEngine.reiniciarCicloPosMeta, StrategyEngine.iniciarSessao]

/-- Claim C8 (amended): with the learning engine present, an idle
ConfidenceGated policy triggers exactly when at least 250 outcomes are
available and the predictive score is defined and at least 0.80; an undefined
score is a hard veto; while active the recommendation is a single wager
(second slot zero) at fixed target 2.0 sized `max(1.0, 1% of balance)` — the
plain 1% only for balances of at least 100; and after processing any one
result the policy is idle, win or lose. -/
theorem C8_confidence_gated_policy (predict : List ℚ → Option ℚ) (s : MLState)
    (history : List ℚ) (balance v : ℚ) :
    (s.is_active = false →
        ((MLPolicy.checkTrigger predict true s history).1 = true ↔
          (requiredHistoryForPrediction ≤ history.length ∧
            ∃ p, predict (lastN requiredHistoryForPrediction history) = some p ∧
              confidenceThreshold ≤ p))) ∧
    (predict (lastN requiredHistoryForPrediction history) = none →
        (MLPolicy.checkTrigger predict true s history).1 = false) ∧
    (s.is_active = true →
        MLPolicy.getBetRecommendation s balance
          = some { strategy_name := "ML High Confidence"
                 , bet_1 := MLPolicy.betSize balance
                 , target_1 := 2, bet_2 := 0, target_2 := 0
                 , justification := "Confianca do modelo > 80%"
                 , confidence := confidenceThreshold, ready := true }) ∧
    ((MLPolicy.processResult s v).is_active = false) := by
  have hreclen : (lastN requiredHistoryForPrediction history).length
      = history.length - (history.length - requiredHistoryForPrediction) := by
    simp [lastN]
  refine ⟨?_, ?_, ?_, ?_⟩
  · intro hidle
    unfold MLPolicy.checkTrigger
    simp only [hidle, Bool.not_true, Bool.or_false, Bool.false_eq_true, if_false]
    by_cases hlen : (lastN requiredHistoryForPrediction history).length
        < requiredHistoryForPrediction
    · rw [if_pos hlen]
      have hshort : history.length < requiredHistoryForPrediction := by
        rw [hreclen] at hlen; omega
      simp only [Bool.false_eq_true, false_iff]
      rintro ⟨hge, -⟩
      omega
    · rw [if_neg hlen]
      have hlong : requiredHistoryForPrediction ≤ history.length := by
        by_contra hcon
        exact hlen (by rw [hreclen]; omega)
      rcases hp : predict (lastN requiredHistoryForPrediction history) with _ | p
      · simp only [Bool.false_eq_true, false_iff]
        rintro ⟨-, q, hq, -⟩
        exact Option.noConfusion hq
      · dsimp only
        by_cases hpc : confidenceThreshold ≤ p
        · rw [if_pos hpc]
          simp only [true_iff]
          exact ⟨hlong, p, rfl, hpc⟩
        · rw [if_neg hpc]
          simp only [Bool.false_eq_true, false_iff]
          rintro ⟨-, q, hq, hqc⟩
          cases hq
          exact hpc hqc
  · intro hnone
    unfold MLPolicy.checkTrigger
    by_cases ha : s.is_active
    · simp [ha]
    · simp only [Bool.not_eq_true] at ha
      simp only [ha, Bool.not_true, Bool.or_false, Bool.false_eq_true, if_false]
      split
      · rfl
      · rw [hnone]
  · intro hact
    unfold MLPolicy.getBetRecommendation
    rw [if_neg (by simp [hact])]
  · unfold MLPolicy.processResult
    split
    · rfl
    · next h => exact Bool.not_eq_true _ |>.mp h

/-- Witness for C8: 250 outcomes with score 0.9 trigger; an undefined score
vetoes on the same history; an active policy at balance 200 recommends the
single 2.0-target wager sized `max(1, 2)`. -/
theorem C8_confidence_gated_policy_witness :
    (MLPolicy.checkTrigger (fun _ => some (9 / 10)) true (MLState.init 100)
        (List.replicate 250 (3 / 2))).1 = true ∧
    (MLPolicy.checkTrigger (fun _ => none) true (MLState.init 100)
        (List.replicate 250 (3 / 2))).1 = false ∧
    MLPolicy.getBetRecommendation ⟨true, 9 / 10, 100⟩ 200
      = some { strategy_name := "ML High Confidence"
             , bet_1 := MLPolicy.betSize 200
             , target_1 := 2, bet_2 := 0, target_2 := 0
             , justification := "Confianca do modelo > 80%"
             , confidence := confidenceThreshold, ready := true } :=
  ⟨((C8_confidence_gated_policy (fun _ => some (9 / 10)) (MLState.init 100)
        (List.replicate 250 (3 / 2)) 0 0).1 rfl).mpr
      ⟨by simp [requiredHistoryForPrediction], 9 / 10, rfl,
        by norm_num [confidenceThreshold]⟩,
   (C8_confidence_gated_policy (fun _ => none) (MLState.init 100)
        (List.replicate 250 (3 / 2)) 0 0).2.1 rfl,
   (C8_confidence_gated_policy (fun _ => some 0) ⟨true, 9 / 10, 100⟩ [] 200
        0).2.2.1 rfl⟩

/-- Claim C8 counterexample: at balance 50 the recommended stake is the
1.0 floor, not 1% of the balance (which would be 0.5). -/
theorem C8_counterexample :
    (MLPolicy.getBetRecommendation ⟨true, 9 / 10, 100⟩ 50).map
        BetRecommendation.bet_1 = some 1 ∧
    (1 : ℚ) ≠ 50 * (1 / 100) := by
  constructor
  · norm_num [MLPolicy.getBetRecommendation, MLPolicy.betSize, betSizePercent]
  · norm_num

end CrashBot
